import Mathlib

/-!
Verification of the `wrfpp.py` post-processing module of the WRF-infra
repository (file `src/postprocess/wrfpp.py`): a shallow embedding in Lean 4 of
its data model (gridded arrays with named dimensions and attributes), its unit
normalization, its destaggering of staggered grid axes, its map-projection
resolution, and its derived-variable computations, together with theorems
about the claims of the specification.

Modelling conventions:
 - floating-point numbers are modelled as exact arithmetic (rationals for
   projection metadata, an arbitrary linear ordered field for array values,
   instantiated at the real numbers for the physics formulas, which use the
   real exponential, logarithm and real power);
 - a raised Python exception is modelled as `Except.error` with one error
   constructor per distinct raise site;
 - an xarray indexing expression `arr[args]` (applied uniformly to every
   input of a derivation) is modelled as an abstract `Selection`: a triple of
   maps applied to dimension names, to the shape, and to indices;
 - elementwise xarray arithmetic between arrays of identical dimensions is
   modelled by pointwise combination of the data functions.
-/

namespace Wrfpp

/-- Errors: one constructor per distinct raise site in `wrfpp.py`. -/
inductive Err where
  /-- `KeyError` from a missing variable lookup. -/
  | keyError (k : String)
  /-- `KeyError` from a variable having neither a "units" nor a "unit"
  attribute (method `units`). -/
  | missingAttribute (v : String)
  /-- `ValueError` from `check_units`: 'Bad units: expected ..., got ...'. -/
  | unitMismatch (expected : String) (actual : Option String)
  /-- `ValueError` from `_units_mpl`: "Could not process units." -/
  | malformedUnits
  /-- `ValueError` from `staggered_dims`: "Dimension ... present in both
  forms." -/
  | invalidGrid (dim : String)
  /-- `ValueError` from `destagger`: "Array has zero or more than one
  staggered dimension(s)." -/
  | ambiguousAxis
  /-- `ValueError` from `tuple.index` when the staggered dimension name is
  not among the dimensions of the array. -/
  | dimNotFound (dim : String)
  /-- `ValueError` from `crs_pyproj`: "Invalid POLE_LON: ...". -/
  | invalidPoleLon (v : ℚ)
  /-- `ValueError` from `crs_pyproj`: "Invalid value for attribute
  POLE_LAT." -/
  | invalidPoleLat
  /-- `NotImplementedError` from `crs_pyproj`: "Projection code ...". -/
  | unsupportedProjection (code : ℤ)
  /-- `ValueError` from `crs_pyproj`: "Invalid projection code: ...". -/
  | invalidProjectionCode (code : ℤ)
  /-- `ValueError`: "Invalid value for MAP_PROJ_CHAR." -/
  | invalidMapProjChar
  /-- `ValueError`: "Inconsistency in central longitude values." -/
  | inconsistentCentralLongitude
  /-- `ValueError`: "Inconsistency in central latitude values." -/
  | inconsistentCentralLatitude
  /-- `ValueError`: "Inconsistency in true latitude values." -/
  | inconsistentTrueLatitude
  /-- `ValueError` from `WRFSeaLevelPressure`: "Could not find all levels
  for extrapolation." -/
  | levelsNotFound
  /-- `ValueError` from `WRFSeaLevelPressure`: "Levels for extrapolation
  are equal." -/
  | levelsEqual
  deriving DecidableEq, Repr

instance {ε α : Type} [DecidableEq ε] [DecidableEq α] :
    DecidableEq (Except ε α) := fun x y =>
  match x, y with
  | .error e1, .error e2 =>
    if h : e1 = e2 then .isTrue (by rw [h])
    else .isFalse (by intro hc; injection hc; contradiction)
  | .error _, .ok _ => .isFalse (by intro hc; cases hc)
  | .ok _, .error _ => .isFalse (by intro hc; cases hc)
  | .ok a1, .ok a2 =>
    if h : a1 = a2 then .isTrue (by rw [h])
    else .isFalse (by intro hc; injection hc; contradiction)

/-- An xarray `DataArray`: named dimensions, a shape, a variable name, the
attribute mapping (restricted to the keys the module reads: "units", "unit"
and "long_name"), and the numeric data, modelled as a total function from
index tuples to values. -/
structure DataArray (α : Type) where
  dims : List String
  shape : List Nat
  name : Option String
  attrUnits : Option String
  attrUnit : Option String
  attrLongName : Option String
  data : List Nat → α

/-- An xarray `Dataset` restricted to what `wrfpp.py` reads from it: named
variable lookup and the dimension-name-to-size mapping. -/
structure Dataset (α : Type) where
  vars : String → Option (DataArray α)
  sizes : String → Option Nat

/-- An abstract xarray indexing operation `arr.__getitem__(*args)`: how it
transforms dimension names, the shape, and which input index each output
index reads.  Applying the same `*args` to arrays of identical dimensions
yields one common `Selection`. -/
structure Selection where
  mapDims : List String → List String
  mapShape : List Nat → List Nat
  mapIdx : List Nat → List Nat

/-- The identity selection, `arr[:]`. -/
def Selection.full : Selection := ⟨id, id, id⟩

/-- `arr.__getitem__(*args)` (basic indexing keeps name and attributes). -/
def DataArray.select {α : Type} (a : DataArray α) (s : Selection) :
    DataArray α :=
  { dims := s.mapDims a.dims
    shape := s.mapShape a.shape
    name := a.name
    attrUnits := a.attrUnits
    attrUnit := a.attrUnit
    attrLongName := a.attrLongName
    data := fun ix => a.data (s.mapIdx ix) }

/-- Elementwise binary arithmetic between two arrays of identical dimensions
(xarray drops the attributes and, for operands of distinct names, the name;
all uses in the module are wrapped in a relabelling `xr.DataArray(...)` call,
so we drop both uniformly). -/
def DataArray.zipSame {α : Type} (f : α → α → α) (a b : DataArray α) :
    DataArray α :=
  { dims := a.dims
    shape := a.shape
    name := none
    attrUnits := none
    attrUnit := none
    attrLongName := none
    data := fun ix => f (a.data ix) (b.data ix) }

/-- Elementwise unary arithmetic (array combined with a scalar). -/
def DataArray.mapVals {α : Type} (f : α → α) (a : DataArray α) :
    DataArray α :=
  { dims := a.dims
    shape := a.shape
    name := none
    attrUnits := none
    attrUnit := none
    attrLongName := none
    data := fun ix => f (a.data ix) }

/-- `xr.DataArray(data, name=n, attrs=dict(long_name=ln, units=u))`: wrap a
computed array with a fresh name and fresh attributes. -/
def relabel {α : Type} (a : DataArray α) (n ln u : String) : DataArray α :=
  { a with
    name := some n
    attrUnits := some u
    attrUnit := none
    attrLongName := some ln }

/-! ## Units handling (`GenericDatasetAccessor`) -/

/-- Method `units`: read attribute "units", falling back on "unit"; a
`KeyError` propagates if neither is present (spec: `MissingAttribute`). -/
def units {α : Type} (ds : Dataset α) (varname : String) :
    Except Err String :=
  match ds.vars varname with
  | none => .error (.keyError varname)
  | some a =>
    match a.attrUnits with
    | some u => .ok u
    | none =>
      match a.attrUnit with
      | some u => .ok u
      | none => .error (.missingAttribute varname)

/-- The `replacements` table of method `units_nice` (`None` meaning
dimensionless). -/
def unitsReplacements (u : String) : Option (Option String) :=
  if u = "-" then some none
  else if u = "1" then some none
  else if u = "m2/s2" then some (some "m2 s-2")
  else if u = "kg/m2" then some (some "kg m-2")
  else if u = "kg/(s*m2)" then some (some "kg m-2 s-1")
  else if u = "kg/(m2*s)" then some (some "kg m-2 s-1")
  else if u = "kg/m2/s" then some (some "kg m-2 s-1")
  else if u = "W m\x7b-2\x7d" then some (some "W m-2")
  else none

/-- Method `units_nice`: look the raw units up in the replacement table, and
pass unknown strings through unchanged. -/
def units_nice {α : Type} (ds : Dataset α) (varname : String) :
    Except Err (Option String) :=
  match units ds varname with
  | .error e => .error e
  | .ok u => .ok ((unitsReplacements u).getD (some u))

/-- Method `check_units`: compare actual units (nice, or raw when
`nice = false`) with the expected string and fail on a difference. -/
def check_units {α : Type} (ds : Dataset α) (varname expected : String)
    (nice : Bool) : Except Err Unit :=
  if nice then
    match units_nice ds varname with
    | .error e => .error e
    | .ok actual =>
      if actual = some expected then .ok ()
      else .error (.unitMismatch expected actual)
  else
    match ds.vars varname with
    | none => .error (.keyError varname)
    | some a =>
      match a.attrUnits with
      | none => .error (.missingAttribute varname)
      | some actual =>
        if actual = expected then .ok ()
        else .error (.unitMismatch expected (some actual))

/-! ## Formatting units for Matplotlib (`_units_mpl`) -/

/-- The character class `"-0123456789"` used by `_units_mpl`. -/
def isSignDigit (c : Char) : Bool :=
  ("-0123456789".toList).contains c

/-- One token of `_units_mpl`: scan from the end of the token across the
characters of `"-0123456789"`; the final scan position `n` satisfies
`n = length - k - 1` where `k` is the length of the trailing run.  The
source then raises when `n < 0` (the token is entirely signs and digits)
and otherwise rewrites the token whenever `n != len(s)` (which always
holds), wrapping the trailing run in `$^{...}$` markup. -/
def unitsMplToken (s : String) : Except Err String :=
  let cs := s.toList
  let k := (cs.reverse.takeWhile isSignDigit).length
  if k = cs.length then .error .malformedUnits
  else if (cs.length : ℤ) - k - 1 ≠ (cs.length : ℤ) then
    .ok ((cs.take (cs.length - k)).asString ++ "$^\x7b"
      ++ (cs.drop (cs.length - k)).asString ++ "\x7d$")
  else .ok s

/-- Python `str.split()` with no argument: split on runs of whitespace,
dropping empty tokens. -/
def pySplit (s : String) : List String :=
  ((s.toList.splitOnP Char.isWhitespace).filter
    (fun t => t ≠ [])).map List.asString

/-- Function `_units_mpl`: split on whitespace, format each token, and
rejoin with single spaces. -/
def units_mpl (unitsStr : String) : Except Err String :=
  match (pySplit unitsStr).mapM unitsMplToken with
  | .error e => .error e
  | .ok toks => .ok (String.intercalate " " toks)

/-! ## Projection resolution (`crs_pyproj` and its two builders) -/

/-- The WRF global attributes read by the projection code.  The numeric
attributes are floats in the NetCDF file, modelled as rationals. -/
structure WRFAttrs where
  map_proj : ℤ
  map_proj_char : Option String
  pole_lon : ℚ
  pole_lat : ℚ
  stand_lon : ℚ
  cen_lon : ℚ
  cen_lat : ℚ
  moad_cen_lat : ℚ
  truelat1 : ℚ
  truelat2 : ℚ
  deriving DecidableEq

/-- A projection descriptor: the dictionary handed to `pyproj.CRS.from_dict`
by either builder. -/
inductive CRS where
  /-- `dict(proj="lcc", lat_0, lon_0, lat_1, lat_2)`. -/
  | lcc (lat0 lon0 lat1 lat2 : ℚ)
  /-- `dict(proj="stere", lat_0, lat_ts, lon_0)`. -/
  | stere (lat0 latTs lon0 : ℚ)
  deriving DecidableEq

/-- Round a rational to the nearest integer, half to even (the rounding of
Python `round`). -/
def pyRoundInt (x : ℚ) : ℤ :=
  if x - (⌊x⌋ : ℚ) < 1 / 2 then ⌊x⌋
  else if 1 / 2 < x - (⌊x⌋ : ℚ) then ⌊x⌋ + 1
  else if ⌊x⌋ % 2 = 0 then ⌊x⌋ else ⌊x⌋ + 1

/-- Python `round` at a given number of decimals: scale, round half to even,
unscale. -/
def pyRound (q : ℚ) (ndigits : ℕ) : ℚ :=
  (pyRoundInt (q * (10 : ℚ) ^ ndigits) : ℚ) / (10 : ℚ) ^ ndigits

/-- Property `_crs_pyproj_lcc`: the Lambert-conformal-conic builder. -/
def crs_pyproj_lcc (a : WRFAttrs) : Except Err CRS :=
  if a.map_proj_char.getD "Lambert Conformal Conic"
      ≠ "Lambert Conformal Conic" then
    .error .invalidMapProjChar
  else if a.stand_lon ≠ a.cen_lon then .error .inconsistentCentralLongitude
  else if a.moad_cen_lat ≠ a.cen_lat then .error .inconsistentCentralLatitude
  else .ok (.lcc a.cen_lat a.cen_lon a.truelat1 a.truelat2)

/-- Property `_crs_pyproj_polarstereo`: the polar-stereographic builder.
The loop over ("TRUELAT1", "TRUELAT2", "MOAD_CEN_LAT") is unrolled in the
source order; each is compared with CEN_LAT after rounding to 4 decimals. -/
def crs_pyproj_polarstereo (a : WRFAttrs) : Except Err CRS :=
  if a.map_proj_char.getD "Polar Stereographic" ≠ "Polar Stereographic" then
    .error .invalidMapProjChar
  else if a.stand_lon ≠ a.cen_lon then .error .inconsistentCentralLongitude
  else if pyRound a.truelat1 4 ≠ pyRound a.cen_lat 4 then
    .error .inconsistentTrueLatitude
  else if pyRound a.truelat2 4 ≠ pyRound a.cen_lat 4 then
    .error .inconsistentTrueLatitude
  else if pyRound a.moad_cen_lat 4 ≠ pyRound a.cen_lat 4 then
    .error .inconsistentTrueLatitude
  else .ok (.stere a.pole_lat a.truelat1 a.cen_lon)

/-- Property `crs_pyproj`: validate the pole attributes, then dispatch on
the MAP_PROJ code. -/
def crs_pyproj (a : WRFAttrs) : Except Err CRS :=
  if a.pole_lon ≠ 0 then .error (.invalidPoleLon a.pole_lon)
  else if ¬(a.pole_lat = 90 ∨ a.pole_lat = -90) then .error .invalidPoleLat
  else if a.map_proj = 1 then crs_pyproj_lcc a
  else if a.map_proj = 2 then crs_pyproj_polarstereo a
  else if a.map_proj ∈ ([0, 102, 3, 4, 5, 6, 105, 203] : List ℤ) then
    .error (.unsupportedProjection a.map_proj)
  else .error (.invalidProjectionCode a.map_proj)

/-- The spec's `ProjectionMetadataInconsistent` error kind groups the
metadata-inconsistency raise sites of the two builders. -/
def Err.isMetadataInconsistent : Err → Prop
  | .inconsistentCentralLongitude => True
  | .inconsistentCentralLatitude => True
  | .inconsistentTrueLatitude => True
  | _ => False

/-! ## Destaggering (`staggered_dims` and `destagger`) -/

/-- `"%s_stag" % dim`. -/
def staggeredName (dim : String) : String := dim ++ "_stag"

/-- One iteration of the loop of `staggered_dims`: detect which form(s) of
`dim` the array carries, raising when both are present. -/
def stagCheck (dims : List String) (dim : String) :
    Except Err (List String) :=
  if dim ∈ dims ∧ staggeredName dim ∈ dims then .error (.invalidGrid dim)
  else if staggeredName dim ∈ dims then .ok [dim]
  else .ok []

/-- Method `staggered_dims`: the loop over
`("west_east", "south_north", "bottom_top")`. -/
def staggered_dims {α : Type} (a : DataArray α) :
    Except Err (List String) :=
  match stagCheck a.dims "west_east" with
  | .error e => .error e
  | .ok l1 =>
    match stagCheck a.dims "south_north" with
    | .error e => .error e
    | .ok l2 =>
      match stagCheck a.dims "bottom_top" with
      | .error e => .error e
      | .ok l3 => .ok (l1 ++ l2 ++ l3)

/-- The body of method `destagger` once the dimension to destagger is known:
locate the staggered axis, average the two shifted slices, and rename the
axis by dropping the `_stag` suffix.  `array.dims.index(dim_stag)` raises
when the name is absent. -/
def destaggerDim {α : Type} [DivisionRing α] (a : DataArray α)
    (dim : String) : Except Err (DataArray α) :=
  let dimStag := staggeredName dim
  if dimStag ∈ a.dims then
    let idx := a.dims.findIdx (fun d => d = dimStag)
    let n := a.shape.getD idx 0
    .ok
      { dims := a.dims.map (fun d => if d = dimStag then dim else d)
        shape := a.shape.set idx (n - 1)
        name := a.name
        attrUnits := none
        attrUnit := none
        attrLongName := none
        data := fun ix =>
          (a.data ix + a.data (ix.set idx (ix.getD idx 0 + 1))) / 2 }
  else .error (.dimNotFound dimStag)

/-- Method `destagger`: when no dimension is specified, it is inferred from
`staggered_dims`, which must return exactly one name. -/
def destagger {α : Type} [DivisionRing α] (a : DataArray α)
    (dimArg : Option String) : Except Err (DataArray α) :=
  match dimArg with
  | some d => destaggerDim a d
  | none =>
    match staggered_dims a with
    | .error e => .error e
    | .ok sd =>
      match sd with
      | [d] => destaggerDim a d
      | _ => .error .ambiguousAxis

/-! ## Derived variables

The numeric constants of the `constants` dictionary, and the per-class
`__getitem__` methods.  Array values live in an arbitrary linear ordered
field equipped with the three transcendental operations the module uses
(`np.exp`, `np.log` and the float power `**`); the intended instance is `ℝ`
with `Real.exp`, `Real.log` and the real power `Real.rpow`. -/

/-- The transcendental operations used by `wrfpp.py` on array values. -/
class RealOps (α : Type) where
  exp : α → α
  log : α → α
  rpow : α → α → α

noncomputable instance : RealOps ℝ :=
  ⟨Real.exp, Real.log, fun x e => x ^ e⟩

/-- Constant `g` (acceleration due to gravity, m s-2). -/
def constants_g {α : Type} [DivisionRing α] : α := 9.81

/-- Constant `pot_temp_t0` (base state potential temperature, K). -/
def constants_pot_temp_t0 {α : Type} [DivisionRing α] : α := 300

/-- Constant `pot_temp_p0` (base state surface pressure, Pa). -/
def constants_pot_temp_p0 {α : Type} [DivisionRing α] : α := 1e5

/-- Constant `r_air` (specific gas constant of dry air, J kg-1 K-1). -/
def constants_r_air {α : Type} [DivisionRing α] : α := 287

/-- Constant `cp_air` (heat capacity of dry air, J kg-1 K-1). -/
def constants_cp_air {α : Type} [DivisionRing α] : α := 1004.5

/-- Constant `mm_dryair` (molar mass of dry air, kg mol-1). -/
def constants_mm_dryair {α : Type} [DivisionRing α] : α := 28.966e-3

/-- Constant `mm_water` (molar mass of water, kg mol-1). -/
def constants_mm_water {α : Type} [DivisionRing α] : α := 18.015e-3

variable {α : Type} [LinearOrderedField α] [RealOps α]

/-- `WRFGeopotential.__getitem__`: check units of PH and PHB, and return
their sum over the requested slice, relabelled. -/
def geopotentialGetitem (ds : Dataset α) (s : Selection) :
    Except Err (DataArray α) := do
  check_units ds "PH" "m2 s-2" true
  check_units ds "PHB" "m2 s-2" true
  match ds.vars "PH", ds.vars "PHB" with
  | some ph, some phb =>
    .ok (relabel (DataArray.zipSame (fun x y => x + y)
      (ph.select s) (phb.select s)) "geopotential" "Geopotential" "m2 s-2")
  | none, _ => .error (.keyError "PH")
  | _, none => .error (.keyError "PHB")

/-- `WRFPotentialTemperature.__getitem__`: check units of T, and return
`pot_temp_t0 + T` over the requested slice, relabelled. -/
def potentialTemperatureGetitem (ds : Dataset α) (s : Selection) :
    Except Err (DataArray α) := do
  check_units ds "T" "K" true
  match ds.vars "T" with
  | some t =>
    .ok (relabel ((t.select s).mapVals (fun x => constants_pot_temp_t0 + x))
      "potential temperature" "Potential temperature" "K")
  | none => .error (.keyError "T")

/-- `WRFAtmPressure.__getitem__`: check units of P and PB, and return their
sum over the requested slice, relabelled. -/
def atmPressureGetitem (ds : Dataset α) (s : Selection) :
    Except Err (DataArray α) := do
  check_units ds "P" "Pa" true
  check_units ds "PB" "Pa" true
  match ds.vars "P", ds.vars "PB" with
  | some p, some pb =>
    .ok (relabel (DataArray.zipSame (fun x y => x + y)
      (p.select s) (pb.select s))
      "atmospheric pressure" "Atmospheric pressure" "Pa")
  | none, _ => .error (.keyError "P")
  | _, none => .error (.keyError "PB")

/-- `WRFAirTemperature.__getitem__`: the Poisson relation
`pot_temp * (pressure / pot_temp_p0) ** (r_air / cp_air)`. -/
def airTemperatureGetitem (ds : Dataset α) (s : Selection) :
    Except Err (DataArray α) := do
  let pot_temp ← potentialTemperatureGetitem ds s
  let pressure ← atmPressureGetitem ds s
  .ok (relabel (DataArray.zipSame
    (fun θ p => θ * RealOps.rpow (p / constants_pot_temp_p0)
      (constants_r_air / constants_cp_air)) pot_temp pressure)
    "air temperature" "Air temperature" "K")

/-- `WRFDensityOfDryAir.__getitem__`: the ideal gas law
`pressure / (r_air * air_temp)`. -/
def densityOfDryAirGetitem (ds : Dataset α) (s : Selection) :
    Except Err (DataArray α) := do
  let pressure ← atmPressureGetitem ds s
  let air_temp ← airTemperatureGetitem ds s
  .ok (relabel (DataArray.zipSame (fun p t => p / (constants_r_air * t))
    pressure air_temp) "dry air density" "Dry air density" "kg m-3")

/-- `WRFRelativeHumidity.__getitem__`: saturation vapor pressure by the
Magnus-type formula of the WRF model, and the mixing-ratio definition. -/
def relativeHumidityGetitem (ds : Dataset α) (s : Selection) :
    Except Err (DataArray α) := do
  check_units ds "QVAPOR" "kg kg-1" true
  match ds.vars "QVAPOR" with
  | none => .error (.keyError "QVAPOR")
  | some qv => do
    let q := qv.select s
    let tK ← airTemperatureGetitem ds s
    let temperature := tK.mapVals (fun x => x - 273.15)
    let psat := temperature.mapVals
      (fun tc => 611.2 * RealOps.exp (17.67 * tc / (tc + 243.5)))
    let pressure ← atmPressureGetitem ds s
    let qsat := DataArray.zipSame
      (fun ps p => constants_mm_water / constants_mm_dryair * ps / (p - ps))
      psat pressure
    .ok (relabel (DataArray.zipSame (fun qq qs => 100 * qq / qs) q qsat)
      "relative humidity" "Relative humidity" "%")

/-! ## Sea-level pressure (`WRFSeaLevelPressure.__getitem__`)

The numpy / xarray operations the method uses are modelled on `DataArray`:
`isel` with an integer index (dropping the axis), broadcasting subtraction
(the dims of the right operand being a subset of those of the left),
`coord.where(cond).min(dim, keepdims=True)` (the smallest level index
satisfying the condition, `None` modelling `NaN` when there is none, the
`bottom_top` coordinate being the integer range over the levels),
`np.take_along_axis`, and `np.any` over all indices of a shape. -/

/-- Insert a value at a position of an index tuple (inverse of dropping an
axis). -/
def listInsertAt : List Nat → Nat → Nat → List Nat
  | l, 0, v => v :: l
  | [], _ + 1, v => [v]
  | x :: xs, j + 1, v => x :: listInsertAt xs j v

/-- `arr.isel(dim=i)`: drop the named axis at a fixed position along it. -/
def DataArray.iselDrop {α : Type} (a : DataArray α) (dim : String)
    (i : Nat) : DataArray α :=
  let j := a.dims.findIdx (fun d => d = dim)
  { dims := a.dims.eraseIdx j
    shape := a.shape.eraseIdx j
    name := a.name
    attrUnits := a.attrUnits
    attrUnit := a.attrUnit
    attrLongName := a.attrLongName
    data := fun ix => a.data (listInsertAt ix j i) }

/-- Align an index of an array of dims `adims` to an operand of dims
`bdims` (xarray broadcasting by dimension name, for the case where the
operand dims form a subset). -/
def alignIdx (adims bdims : List String) (ix : List Nat) : List Nat :=
  bdims.map (fun d => ix.getD (adims.findIdx (fun x => x = d)) 0)

/-- Broadcasting subtraction `a - b` where the dims of `b` are a subset of
the dims of `a`. -/
def DataArray.subAligned {α : Type} [Sub α] (a b : DataArray α) :
    DataArray α :=
  { dims := a.dims
    shape := a.shape
    name := none
    attrUnits := none
    attrUnit := none
    attrLongName := none
    data := fun ix => a.data ix - b.data (alignIdx a.dims b.dims ix) }

/-- Type-changing elementwise map (numpy `astype` and index arithmetic). -/
def DataArray.retype {α β : Type} (a : DataArray α) (f : α → β) :
    DataArray β :=
  { dims := a.dims
    shape := a.shape
    name := none
    attrUnits := none
    attrUnit := none
    attrLongName := none
    data := fun ix => f (a.data ix) }

/-- Elementwise combination of three arrays of identical dimensions. -/
def DataArray.zip3 {α : Type} (f : α → α → α → α)
    (a b c : DataArray α) : DataArray α :=
  { dims := a.dims
    shape := a.shape
    name := none
    attrUnits := none
    attrUnit := none
    attrLongName := none
    data := fun ix => f (a.data ix) (b.data ix) (c.data ix) }

/-- All index tuples of a shape (for `np.any` over an array). -/
def allIdx : List Nat → List (List Nat)
  | [] => [[]]
  | n :: rest =>
    (List.range n).flatMap (fun i => (allIdx rest).map (fun t => i :: t))

/-- `diff.bottom_top.where(diff < 0).min(dim="bottom_top", keepdims=True)`:
for each column, the smallest level index whose value is negative (`none`
modelling the all-`NaN` minimum). -/
def whereMinLevel {α : Type} [LinearOrderedField α] (diff : DataArray α) :
    DataArray (Option Nat) :=
  let j := diff.dims.findIdx (fun d => d = "bottom_top")
  let nlev := diff.shape.getD j 0
  { dims := diff.dims
    shape := diff.shape.set j 1
    name := none
    attrUnits := none
    attrUnit := none
    attrLongName := none
    data := fun ix =>
      (List.range nlev).find? (fun k => decide (diff.data (ix.set j k) < 0)) }

/-- `np.take_along_axis(a, idxs, axis)` for an index array carrying size 1
along the axis. -/
def takeAlong {α : Type} (a : DataArray α) (idxs : DataArray Nat)
    (axis : Nat) : DataArray α :=
  { dims := a.dims
    shape := idxs.shape
    name := none
    attrUnits := none
    attrUnit := none
    attrLongName := none
    data := fun ix => a.data (ix.set axis (idxs.data ix)) }

/-- Variable lookup `wrf[name]` (`KeyError` when absent). -/
def getVar {α : Type} (ds : Dataset α) (name : String) :
    Except Err (DataArray α) :=
  match ds.vars name with
  | some a => .ok a
  | none => .error (.keyError name)

/-- `tuple.index(dim)`: position of a dimension name, raising `ValueError`
when absent. -/
def dimsIndex (dims : List String) (d : String) : Except Err Nat :=
  if d ∈ dims then .ok (dims.findIdx (fun x => x = d))
  else .error (.dimNotFound d)

variable {α : Type} [LinearOrderedField α] [RealOps α]

/-- `WRFSeaLevelPressure.__getitem__`, the transcription of the
`compute_seaprs` port: find the lowest level at least `1e4` Pa above the
surface pressure, bracket it with two levels, extrapolate temperatures and
elevations, and then — the method body ends without a `return` statement
(the final construction of the result array is commented out in the
source), so on the success path the Python function returns `None`,
modelled by `Except.ok none`. -/
def seaLevelPressureGetitem (ds : Dataset α) (s : Selection) :
    Except Err (Option (DataArray α)) := do
  let nz ← match ds.sizes "bottom_top" with
    | some n => pure n
    | none => Except.error (Err.keyError "bottom_top")
  let lapse_rate : α := 0.0065
  let p_threshold : α := 1e4
  let p ← atmPressureGetitem ds Selection.full
  let diff := DataArray.subAligned p
    ((p.iselDrop "bottom_top" 0).mapVals (fun x => x - p_threshold))
  let idx := whereMinLevel diff
  if (allIdx idx.shape).any (fun ix => (idx.data ix).isNone) then
    Except.error Err.levelsNotFound
  else do
    let idx_low : DataArray Nat := idx.retype (fun o =>
      match o with
      | some k => if 0 < k then k - 1 else 0
      | none => 0)
    let idx_high : DataArray Nat :=
      idx_low.mapVals (fun k => if (k : ℤ) < (nz : ℤ) - 2 then k + 1
        else nz - 1)
    if (allIdx idx_low.shape).any
        (fun ix => decide (idx_low.data ix = idx_high.data ix)) then
      Except.error Err.levelsEqual
    else do
      let idim_p ← dimsIndex p.dims "bottom_top"
      let p_low := takeAlong p idx_low idim_p
      let p_high := takeAlong p idx_high idim_p
      check_units ds "QVAPOR" "kg kg-1" true
      let q ← getVar ds "QVAPOR"
      let idim_q ← dimsIndex q.dims "bottom_top"
      let q_low := takeAlong q idx_low idim_q
      let q_high := takeAlong q idx_high idim_q
      let t ← airTemperatureGetitem ds s
      let idim_t ← dimsIndex t.dims "bottom_top"
      let t_low0 := takeAlong t idx_low idim_t
      let t_high0 := takeAlong t idx_high idim_t
      let t_low := DataArray.zipSame (fun tv qv => tv * (1 + 0.608 * qv))
        t_low0 q_low
      let t_high := DataArray.zipSame (fun tv qv => tv * (1 + 0.608 * qv))
        t_high0 q_high
      let geo ← geopotentialGetitem ds Selection.full
      let ph ← destagger geo (some "bottom_top")
      let z := ph.mapVals (fun x => x / constants_g)
      let idim_z ← dimsIndex ph.dims "bottom_top"
      let z_low := takeAlong z idx_low idim_z
      -- the source passes idx_low (not idx_high) here as well
      let z_high := takeAlong z idx_low idim_z
      -- p[tuple(slice(0, 1) along bottom_top)]: same data, axis of length 1
      let p_bottom : DataArray α :=
        { p with shape := p.shape.set idim_p 1 }
      let p_at_thresh := p_bottom.mapVals (fun x => x - p_threshold)
      let factor := DataArray.zipSame (fun x y => x * y)
        ((DataArray.zipSame (fun x y => x / y) p_at_thresh p_high).mapVals
          (RealOps.log (α := α)))
        ((DataArray.zipSame (fun x y => x / y) p_low p_high).mapVals
          (RealOps.log (α := α)))
      let t_at_thresh := DataArray.zip3 (fun th tl fc => th - (th - tl) * fc)
        t_high t_low factor
      let z_at_thresh := DataArray.zip3 (fun zh zl fc => zh - (zh - zl) * fc)
        z_high z_low factor
      let exponent := lapse_rate * constants_r_air / constants_g
      let _t_surf := DataArray.zip3
        (fun ta pb pat => ta * RealOps.rpow (α := α) (pb / pat) exponent)
        t_at_thresh p_bottom p_at_thresh
      let _t_sealevel := DataArray.zipSame
        (fun ta za => ta + lapse_rate * za) t_at_thresh z_at_thresh
      .ok none

/-- `WRFAccumulatedPrecipitation.__getitem__`: check units of RAINNC and
RAINC, and return their sum over the requested slice, relabelled. -/
def accumulatedPrecipitationGetitem (ds : Dataset α) (s : Selection) :
    Except Err (DataArray α) := do
  check_units ds "RAINNC" "mm" true
  check_units ds "RAINC" "mm" true
  match ds.vars "RAINNC", ds.vars "RAINC" with
  | some rainnc, some rainc =>
    .ok (relabel (DataArray.zipSame (fun x y => x + y)
      (rainnc.select s) (rainc.select s))
      "accumulated total precipitation" "Accumulated total precipitation"
      "mm")
  | none, _ => .error (.keyError "RAINNC")
  | _, none => .error (.keyError "RAINC")

/-! ## Concrete instances used to evaluate the definitions -/

/-- Consistent Lambert-conformal-conic metadata. -/
def lccGoodAttrs : WRFAttrs :=
  { map_proj := 1
    map_proj_char := some "Lambert Conformal Conic"
    pole_lon := 0
    pole_lat := 90
    stand_lon := -3
    cen_lon := -3
    cen_lat := 45
    moad_cen_lat := 45
    truelat1 := 30
    truelat2 := 60 }

/-- Metadata with valid pole attributes carrying the documented but
unsupported Mercator projection code 3. -/
def mercatorAttrs : WRFAttrs :=
  { map_proj := 3
    map_proj_char := none
    pole_lon := 0
    pole_lat := 90
    stand_lon := 0
    cen_lon := 0
    cen_lat := 0
    moad_cen_lat := 0
    truelat1 := 0
    truelat2 := 0 }

/-- Consistent polar-stereographic metadata (latitudes equal only after
rounding to 4 decimal places). -/
def polarGoodAttrs : WRFAttrs :=
  { map_proj := 2
    map_proj_char := some "Polar Stereographic"
    pole_lon := 0
    pole_lat := 90
    stand_lon := 10
    cen_lon := 10
    cen_lat := 70
    moad_cen_lat := 70
    truelat1 := 70 + 1 / 100000
    truelat2 := 70 }

/-- Polar-stereographic metadata whose three true latitudes agree with each
other but not with CEN_LAT. -/
def polarBadAttrs : WRFAttrs :=
  { map_proj := 2
    map_proj_char := none
    pole_lon := 0
    pole_lat := 90
    stand_lon := 0
    cen_lon := 0
    cen_lat := 50
    moad_cen_lat := 60
    truelat1 := 60
    truelat2 := 60 }

/-- A dataset with one variable named "SNOW" whose raw units are the
spelling "kg/m2/s". -/
def unitsDs : Dataset Unit :=
  { vars := fun n =>
      if n = "SNOW" then
        some
          { dims := ["Time", "south_north", "west_east"]
            shape := [1, 2, 2]
            name := some "SNOW"
            attrUnits := some "kg/m2/s"
            attrUnit := none
            attrLongName := none
            data := fun _ => () }
      else none
    sizes := fun _ => none }

/-- A staggered vertical-velocity-like array over the rationals with one
staggered axis of length 3. -/
def stagArr : DataArray ℚ :=
  { dims := ["Time", "bottom_top_stag"]
    shape := [1, 3]
    name := some "W"
    attrUnits := some "m s-1"
    attrUnit := none
    attrLongName := none
    data := fun ix =>
      match ix.getD 1 0 with
      | 0 => 2
      | 1 => 4
      | _ => 8 }

/-- An invalid array carrying both forms of the west_east axis. -/
def bothFormsArr : DataArray ℚ :=
  { dims := ["west_east", "west_east_stag"]
    shape := [2, 3]
    name := none
    attrUnits := none
    attrUnit := none
    attrLongName := none
    data := fun _ => 0 }

/-- A 4-dimensional constant array in the WRF layout. -/
noncomputable def constArr4 (u : String) (v : ℝ) : DataArray ℝ :=
  { dims := ["Time", "bottom_top", "south_north", "west_east"]
    shape := [1, 1, 1, 1]
    name := none
    attrUnits := some u
    attrUnit := none
    attrLongName := none
    data := fun _ => v }

/-- The end-to-end example dataset of the specification: P = 50000 Pa,
PB = 50000 Pa, T = 10 K, QVAPOR = 0.005 kg/kg. -/
noncomputable def endToEndDs : Dataset ℝ :=
  { vars := fun n =>
      if n = "P" then some (constArr4 "Pa" 50000)
      else if n = "PB" then some (constArr4 "Pa" 50000)
      else if n = "T" then some (constArr4 "K" 10)
      else if n = "QVAPOR" then some (constArr4 "kg kg-1" 0.005)
      else none
    sizes := fun n => if n = "bottom_top" then some 1 else none }

/-- A one-column constant array over three vertical levels. -/
noncomputable def colArr (u : String) (v : ℝ) : DataArray ℝ :=
  { dims := ["bottom_top"]
    shape := [3]
    name := none
    attrUnits := some u
    attrUnit := none
    attrLongName := none
    data := fun _ => v }

/-- A one-column perturbation-pressure array with values 50000, 35000 and
20000 Pa over the three vertical levels. -/
noncomputable def slpP : DataArray ℝ :=
  { dims := ["bottom_top"]
    shape := [3]
    name := none
    attrUnits := some "Pa"
    attrUnit := none
    attrLongName := none
    data := fun ix =>
      if ix.getD 0 0 = 0 then 50000
      else if ix.getD 0 0 = 1 then 35000
      else 20000 }

/-- A constant geopotential perturbation on the staggered vertical axis. -/
noncomputable def slpPH : DataArray ℝ :=
  { dims := ["bottom_top_stag"]
    shape := [4]
    name := none
    attrUnits := some "m2 s-2"
    attrUnit := none
    attrLongName := none
    data := fun _ => 0 }

/-- A base-state geopotential on the staggered vertical axis. -/
noncomputable def slpPHB : DataArray ℝ :=
  { dims := ["bottom_top_stag"]
    shape := [4]
    name := none
    attrUnits := some "m2 s-2"
    attrUnit := none
    attrLongName := none
    data := fun ix => (ix.getD 0 0 : ℝ) * 5000 }

/-- A one-column dataset over three vertical levels with pressures
100000, 85000 and 70000 Pa, on which the sea-level-pressure bracketing
succeeds (level 1 is the lowest level more than 10000 Pa above the
surface). -/
noncomputable def slpDs : Dataset ℝ :=
  { vars := fun n =>
      if n = "P" then some slpP
      else if n = "PB" then some (colArr "Pa" 50000)
      else if n = "T" then some (colArr "K" 10)
      else if n = "QVAPOR" then some (colArr "kg kg-1" 0.005)
      else if n = "PH" then some slpPH
      else if n = "PHB" then some slpPHB
      else none
    sizes := fun n => if n = "bottom_top" then some 3 else none }

/-! ## Helper lemmas -/

/-- Rounding an integer at any number of decimals returns it unchanged. -/
theorem pyRound_int (z : ℤ) (n : ℕ) : pyRound (z : ℚ) n = z := by
  unfold pyRound pyRoundInt
  have h1 : ((z : ℚ) * (10 : ℚ) ^ n) = ((z * 10 ^ n : ℤ) : ℚ) := by
    push_cast
    ring
  rw [h1, Int.floor_intCast, sub_self, if_pos (by norm_num : (0 : ℚ) < 1 / 2)]
  push_cast
  field_simp

/-- `check_units` succeeds on a variable whose nice units are as
expected. -/
theorem check_units_ok {α : Type} (ds : Dataset α) (v expected : String)
    (h : units_nice ds v = .ok (some expected)) :
    check_units ds v expected true = .ok () := by
  simp [check_units, h]

/-- The value of `WRFAtmPressure.__getitem__` when P and PB are present
with the expected units. -/
theorem atmPressure_ok {α : Type} [LinearOrderedField α] [RealOps α]
    (ds : Dataset α) (s : Selection) (p pb : DataArray α)
    (hP : ds.vars "P" = some p) (hPB : ds.vars "PB" = some pb)
    (huP : units_nice ds "P" = .ok (some "Pa"))
    (huPB : units_nice ds "PB" = .ok (some "Pa")) :
    atmPressureGetitem ds s = .ok
      (relabel (DataArray.zipSame (fun x y => x + y) (p.select s)
        (pb.select s)) "atmospheric pressure" "Atmospheric pressure"
        "Pa") := by
  unfold atmPressureGetitem
  rw [check_units_ok ds "P" "Pa" huP, check_units_ok ds "PB" "Pa" huPB,
    hP, hPB]
  rfl

/-- The value of `WRFPotentialTemperature.__getitem__` when T is present
with the expected units. -/
theorem potentialTemperature_ok {α : Type} [LinearOrderedField α]
    [RealOps α] (ds : Dataset α) (s : Selection) (t : DataArray α)
    (hT : ds.vars "T" = some t)
    (huT : units_nice ds "T" = .ok (some "K")) :
    potentialTemperatureGetitem ds s = .ok
      (relabel ((t.select s).mapVals (fun x => constants_pot_temp_t0 + x))
        "potential temperature" "Potential temperature" "K") := by
  unfold potentialTemperatureGetitem
  rw [check_units_ok ds "T" "K" huT, hT]
  rfl

/-- The value of `WRFGeopotential.__getitem__` when PH and PHB are present
with the expected units. -/
theorem geopotential_ok {α : Type} [LinearOrderedField α] [RealOps α]
    (ds : Dataset α) (s : Selection) (ph phb : DataArray α)
    (hPH : ds.vars "PH" = some ph) (hPHB : ds.vars "PHB" = some phb)
    (huPH : units_nice ds "PH" = .ok (some "m2 s-2"))
    (huPHB : units_nice ds "PHB" = .ok (some "m2 s-2")) :
    geopotentialGetitem ds s = .ok
      (relabel (DataArray.zipSame (fun x y => x + y) (ph.select s)
        (phb.select s)) "geopotential" "Geopotential" "m2 s-2") := by
  unfold geopotentialGetitem
  rw [check_units_ok ds "PH" "m2 s-2" huPH,
    check_units_ok ds "PHB" "m2 s-2" huPHB, hPH, hPHB]
  rfl

/-- The value of `WRFAirTemperature.__getitem__` when P, PB and T are
present with the expected units. -/
theorem airTemperature_ok {α : Type} [LinearOrderedField α] [RealOps α]
    (ds : Dataset α) (s : Selection) (p pb t : DataArray α)
    (hP : ds.vars "P" = some p) (hPB : ds.vars "PB" = some pb)
    (hT : ds.vars "T" = some t)
    (huP : units_nice ds "P" = .ok (some "Pa"))
    (huPB : units_nice ds "PB" = .ok (some "Pa"))
    (huT : units_nice ds "T" = .ok (some "K")) :
    airTemperatureGetitem ds s = .ok
      (relabel (DataArray.zipSame (fun x y =>
          x * RealOps.rpow (y / constants_pot_temp_p0)
            (constants_r_air / constants_cp_air))
        (relabel ((t.select s).mapVals (fun x => constants_pot_temp_t0 + x))
          "potential temperature" "Potential temperature" "K")
        (relabel (DataArray.zipSame (fun x y => x + y) (p.select s)
          (pb.select s)) "atmospheric pressure" "Atmospheric pressure"
          "Pa"))
      "air temperature" "Air temperature" "K") := by
  unfold airTemperatureGetitem
  rw [potentialTemperature_ok ds s t hT huT,
    atmPressure_ok ds s p pb hP hPB huP huPB]
  rfl

/-- A failing `stagCheck` always reports the invalid-grid error for its own
axis. -/
theorem stagCheck_error_shape {dims : List String} {x : String} {e : Err}
    (h : stagCheck dims x = .error e) : e = .invalidGrid x := by
  unfold stagCheck at h
  by_cases h1 : x ∈ dims ∧ staggeredName x ∈ dims
  · rw [if_pos h1] at h
    exact (Except.error.inj h).symm
  · rw [if_neg h1] at h
    by_cases h2 : staggeredName x ∈ dims
    · rw [if_pos h2] at h
      exact absurd h (by simp)
    · rw [if_neg h2] at h
      exact absurd h (by simp)

/-- A successful `stagCheck` returns `[x]` exactly when the staggered form
is present, and guarantees that the two forms are not both present. -/
theorem stagCheck_ok_char {dims : List String} {x : String}
    {li : List String} (h : stagCheck dims x = .ok li) :
    li = (if staggeredName x ∈ dims then [x] else []) ∧
      ¬(x ∈ dims ∧ staggeredName x ∈ dims) := by
  unfold stagCheck at h
  by_cases h1 : x ∈ dims ∧ staggeredName x ∈ dims
  · rw [if_pos h1] at h
    exact absurd h (by simp)
  · rw [if_neg h1] at h
    by_cases h2 : staggeredName x ∈ dims
    · rw [if_pos h2] at h
      exact ⟨by rw [if_pos h2, Except.ok.inj h], h1⟩
    · rw [if_neg h2] at h
      exact ⟨by rw [if_neg h2, Except.ok.inj h], h1⟩

/-- When `staggered_dims` finds exactly one staggered axis, `destagger`
with no axis argument destaggers it. -/
theorem destagger_none_eq {α : Type} [DivisionRing α] (a : DataArray α)
    (d : String) (hsd : staggered_dims a = .ok [d]) :
    destagger a none = destaggerDim a d := by
  unfold destagger
  rw [hsd]

/-- The value of `destaggerDim` when the staggered axis is present. -/
theorem destaggerDim_ok {α : Type} [DivisionRing α] (a : DataArray α)
    (d : String) (hmem : staggeredName d ∈ a.dims) :
    destaggerDim a d = .ok
      { dims := a.dims.map (fun x => if x = staggeredName d then d else x)
        shape := a.shape.set (a.dims.findIdx (fun x => x = staggeredName d))
          (a.shape.getD (a.dims.findIdx (fun x => x = staggeredName d)) 0
            - 1)
        name := a.name
        attrUnits := none
        attrUnit := none
        attrLongName := none
        data := fun ix =>
          (a.data ix + a.data
            (ix.set (a.dims.findIdx (fun x => x = staggeredName d))
              (ix.getD (a.dims.findIdx (fun x => x = staggeredName d)) 0
                + 1))) / 2 } := by
  unfold destaggerDim
  rw [if_pos hmem]

/-- Each name returned by a successful `staggered_dims` has its staggered
form among the dimensions of the array. -/
theorem staggered_dims_ok_mem {α : Type} {a : DataArray α}
    {l : List String} (hsd : staggered_dims a = .ok l) :
    ∀ d ∈ l, staggeredName d ∈ a.dims := by
  unfold staggered_dims at hsd
  cases hwe : stagCheck a.dims "west_east" with
  | error e =>
    rw [hwe] at hsd
    exact absurd hsd (by simp)
  | ok l1 =>
    rw [hwe] at hsd
    cases hsn : stagCheck a.dims "south_north" with
    | error e =>
      rw [hsn] at hsd
      exact absurd hsd (by simp)
    | ok l2 =>
      rw [hsn] at hsd
      cases hbt : stagCheck a.dims "bottom_top" with
      | error e =>
        rw [hbt] at hsd
        exact absurd hsd (by simp)
      | ok l3 =>
        rw [hbt] at hsd
        have hl : l1 ++ l2 ++ l3 = l := Except.ok.inj hsd
        obtain ⟨he1, -⟩ := stagCheck_ok_char hwe
        obtain ⟨he2, -⟩ := stagCheck_ok_char hsn
        obtain ⟨he3, -⟩ := stagCheck_ok_char hbt
        subst hl he1 he2 he3
        intro d hd
        rcases List.mem_append.mp hd with hd | hd
        · rcases List.mem_append.mp hd with hd | hd
          · split_ifs at hd with hb
            · rw [List.mem_singleton.mp hd]
              exact hb
            · exact absurd hd (List.not_mem_nil d)
          · split_ifs at hd with hb
            · rw [List.mem_singleton.mp hd]
              exact hb
            · exact absurd hd (List.not_mem_nil d)
        · split_ifs at hd with hb
          · rw [List.mem_singleton.mp hd]
            exact hb
          · exact absurd hd (List.not_mem_nil d)

/-! ## Theorems about the claims -/

/-- Claim C7: unit canonicalization maps each of "kg/(s*m2)", "kg/(m2*s)"
and "kg/m2/s" to "kg m-2 s-1", maps "-" and "1" to none (dimensionless),
"m2/s2" to "m2 s-2", "kg/m2" to "kg m-2", and "W m\x7b-2\x7d" to "W m-2",
and returns every other unit string unchanged. -/
theorem units_nice_canonicalization {α : Type} (ds : Dataset α)
    (v u : String) (hu : units ds v = .ok u) :
    ((u = "kg/(s*m2)" ∨ u = "kg/(m2*s)" ∨ u = "kg/m2/s") →
      units_nice ds v = .ok (some "kg m-2 s-1")) ∧
    ((u = "-" ∨ u = "1") → units_nice ds v = .ok none) ∧
    (u = "m2/s2" → units_nice ds v = .ok (some "m2 s-2")) ∧
    (u = "kg/m2" → units_nice ds v = .ok (some "kg m-2")) ∧
    (u = "W m\x7b-2\x7d" → units_nice ds v = .ok (some "W m-2")) ∧
    (u ∉ (["-", "1", "m2/s2", "kg/m2", "kg/(s*m2)", "kg/(m2*s)",
        "kg/m2/s", "W m\x7b-2\x7d"] : List String) →
      units_nice ds v = .ok (some u)) := by
  unfold units_nice
  rw [hu]
  refine ⟨?_, ?_, ?_, ?_, ?_, ?_⟩
  · rintro (rfl | rfl | rfl) <;> rfl
  · rintro (rfl | rfl) <;> rfl
  · rintro rfl
    rfl
  · rintro rfl
    rfl
  · rintro rfl
    rfl
  · intro h
    simp only [List.mem_cons, List.not_mem_nil, or_false] at h
    push_neg at h
    obtain ⟨h1, h2, h3, h4, h5, h6, h7, h8⟩ := h
    show Except.ok ((unitsReplacements u).getD (some u)) = _
    unfold unitsReplacements
    rw [if_neg h1, if_neg h2, if_neg h3, if_neg h4, if_neg h5, if_neg h6,
      if_neg h7, if_neg h8]
    rfl

/-- Witness for claim C7 at a concrete dataset whose variable "SNOW"
carries the raw units "kg/m2/s". -/
theorem units_nice_canonicalization_witness :
    units unitsDs "SNOW" = .ok "kg/m2/s" ∧
    units_nice unitsDs "SNOW" = .ok (some "kg m-2 s-1") :=
  ⟨rfl, (units_nice_canonicalization unitsDs "SNOW" "kg/m2/s" rfl).1
    (Or.inr (Or.inr rfl))⟩

/-- Claim C8 (the code contradicts its own docstring): `_units_mpl` does
not leave a token without a trailing numeric exponent unchanged — the check
`n != len(s)` always holds, so "km" in "km s-1" is rewritten to an empty
superscript, contrary to the docstring example "km s$^\x7b-1\x7d$".  A
token consisting entirely of sign/digit characters does fail. -/
theorem units_mpl_empty_exponent_bug :
    units_mpl "km s-1" = .ok "km$^\x7b\x7d$ s$^\x7b-1\x7d$" ∧
    units_mpl "km s-1" ≠ .ok "km s$^\x7b-1\x7d$" ∧
    units_mpl "-12" = .error .malformedUnits := by
  refine ⟨rfl, ?_, rfl⟩
  decide

/-- Claim C2: for an array carrying exactly one staggered axis of length at
least 2, destaggering with no axis argument produces an array whose
staggered axis has length n - 1, whose value at every index equals the
average of the two adjacent staggered values, and whose axis is renamed by
dropping the "_stag" suffix. -/
theorem destagger_averages {α : Type} [DivisionRing α] (a : DataArray α)
    (d : String) (idx n : ℕ) (hsd : staggered_dims a = .ok [d])
    (hidxeq : idx = a.dims.findIdx (fun x => x = staggeredName d))
    (hidx : idx < a.shape.length)
    (hneq : n = a.shape.getD idx 0) (hn : 2 ≤ n) :
    ∃ out, destagger a none = .ok out ∧
      out.dims = a.dims.map (fun x => if x = staggeredName d then d else x) ∧
      out.shape.getD idx 0 = n - 1 ∧
      ∀ ix : List Nat, out.data ix =
        (a.data ix + a.data (ix.set idx (ix.getD idx 0 + 1))) / 2 := by
  have hmem : staggeredName d ∈ a.dims :=
    staggered_dims_ok_mem hsd d (List.mem_singleton_self d)
  have h1 : destagger a none = destaggerDim a d := destagger_none_eq a d hsd
  rw [destaggerDim_ok a d hmem] at h1
  subst hidxeq
  subst hneq
  refine ⟨_, h1, rfl, ?_, fun ix => rfl⟩
  simp [List.getD_eq_getElem?_getD, List.getElem?_set_self, hidx]

/-- Witness for claim C2 at a concrete staggered array with values 2, 4, 8
along bottom_top_stag: the destaggered first value is (2 + 4) / 2 = 3. -/
theorem destagger_averages_witness :
    staggered_dims stagArr = .ok ["bottom_top"] ∧
    (2 : ℕ) ≤ stagArr.shape.getD 1 0 ∧
    ∃ out, destagger stagArr none = .ok out ∧
      out.dims = ["Time", "bottom_top"] ∧
      out.shape.getD 1 0 = 2 ∧ out.data [0, 0] = 3 := by
  obtain ⟨out, h1, h2, h3, h4⟩ :=
    destagger_averages stagArr "bottom_top" 1 3 rfl rfl (by decide) rfl
      (by decide)
  refine ⟨rfl, by decide, out, h1, ?_, ?_, ?_⟩
  · rw [h2]
    rfl
  · rw [h3]
  · rw [h4 [0, 0]]
    show ((2 : ℚ) + 4) / 2 = 3
    norm_num

/-- Claim C9: computing the staggered axes fails with the invalid-grid
error when some axis is present in both the staggered and the unstaggered
form; on an array satisfying the data-model invariant (`staggered_dims`
succeeds), destaggering with the axis unspecified fails with the
ambiguous-axis error exactly when the number of staggered axes differs
from one, and otherwise destaggers the unique staggered axis. -/
theorem staggered_axes_inference {α : Type} [DivisionRing α]
    (a : DataArray α) :
    ((∃ d ∈ (["west_east", "south_north", "bottom_top"] : List String),
        d ∈ a.dims ∧ staggeredName d ∈ a.dims) →
      ∃ d, staggered_dims a = .error (.invalidGrid d)) ∧
    (∀ l, staggered_dims a = .ok l →
      (∀ d, d ∈ l ↔
        (d ∈ (["west_east", "south_north", "bottom_top"] : List String) ∧
          staggeredName d ∈ a.dims)) ∧
      ((destagger a none = .error .ambiguousAxis) ↔ l.length ≠ 1) ∧
      (∀ d, l = [d] → ∃ out, destagger a none = .ok out ∧
        destagger a none = destaggerDim a d)) := by
  constructor
  · rintro ⟨d, hdl, hns, hst⟩
    simp only [List.mem_cons, List.not_mem_nil, or_false] at hdl
    unfold staggered_dims
    rcases hdl with rfl | rfl | rfl
    · have hw : stagCheck a.dims "west_east"
          = .error (.invalidGrid "west_east") := by
        unfold stagCheck
        rw [if_pos ⟨hns, hst⟩]
      exact ⟨"west_east", by rw [hw]⟩
    · cases hwe : stagCheck a.dims "west_east" with
      | error e =>
        have he := stagCheck_error_shape hwe
        subst he
        exact ⟨"west_east", rfl⟩
      | ok l1 =>
        have hsn : stagCheck a.dims "south_north"
            = .error (.invalidGrid "south_north") := by
          unfold stagCheck
          rw [if_pos ⟨hns, hst⟩]
        exact ⟨"south_north", by rw [hsn]⟩
    · cases hwe : stagCheck a.dims "west_east" with
      | error e =>
        have he := stagCheck_error_shape hwe
        subst he
        exact ⟨"west_east", rfl⟩
      | ok l1 =>
        cases hsn : stagCheck a.dims "south_north" with
        | error e =>
          have he := stagCheck_error_shape hsn
          subst he
          exact ⟨"south_north", rfl⟩
        | ok l2 =>
          have hbt : stagCheck a.dims "bottom_top"
              = .error (.invalidGrid "bottom_top") := by
            unfold stagCheck
            rw [if_pos ⟨hns, hst⟩]
          exact ⟨"bottom_top", by rw [hbt]⟩
  · intro l hl
    have hl0 := hl
    unfold staggered_dims at hl
    cases hwe : stagCheck a.dims "west_east" with
    | error e =>
      rw [hwe] at hl
      exact absurd hl (by simp)
    | ok l1 =>
      rw [hwe] at hl
      cases hsn : stagCheck a.dims "south_north" with
      | error e =>
        rw [hsn] at hl
        exact absurd hl (by simp)
      | ok l2 =>
        rw [hsn] at hl
        cases hbt : stagCheck a.dims "bottom_top" with
        | error e =>
          rw [hbt] at hl
          exact absurd hl (by simp)
        | ok l3 =>
          rw [hbt] at hl
          have hl2 : l1 ++ l2 ++ l3 = l := Except.ok.inj hl
          obtain ⟨he1, hn1⟩ := stagCheck_ok_char hwe
          obtain ⟨he2, hn2⟩ := stagCheck_ok_char hsn
          obtain ⟨he3, hn3⟩ := stagCheck_ok_char hbt
          have hmem : ∀ d, d ∈ l ↔
              (d ∈ (["west_east", "south_north", "bottom_top"] :
                  List String) ∧
                staggeredName d ∈ a.dims) := by
            intro d
            rw [← hl2, he1, he2, he3]
            constructor
            · intro hd
              rcases List.mem_append.mp hd with hd | hd
              · rcases List.mem_append.mp hd with hd | hd
                · split_ifs at hd with hb
                  · rw [List.mem_singleton.mp hd]
                    exact ⟨by simp, hb⟩
                  · exact absurd hd (List.not_mem_nil d)
                · split_ifs at hd with hb
                  · rw [List.mem_singleton.mp hd]
                    exact ⟨by simp, hb⟩
                  · exact absurd hd (List.not_mem_nil d)
              · split_ifs at hd with hb
                · rw [List.mem_singleton.mp hd]
                  exact ⟨by simp, hb⟩
                · exact absurd hd (List.not_mem_nil d)
            · rintro ⟨hd3, hstag⟩
              simp only [List.mem_cons, List.not_mem_nil, or_false] at hd3
              rcases hd3 with rfl | rfl | rfl
              · apply List.mem_append.mpr
                left
                apply List.mem_append.mpr
                left
                rw [if_pos hstag]
                exact List.mem_singleton_self _
              · apply List.mem_append.mpr
                left
                apply List.mem_append.mpr
                right
                rw [if_pos hstag]
                exact List.mem_singleton_self _
              · apply List.mem_append.mpr
                right
                rw [if_pos hstag]
                exact List.mem_singleton_self _
          refine ⟨hmem, ?_, ?_⟩
          · rcases l with _ | ⟨d1, _ | ⟨d2, rest⟩⟩
            · have hda : destagger a none = .error .ambiguousAxis := by
                unfold destagger
                rw [hl0]
              rw [hda]
              simp
            · have hmem1 : staggeredName d1 ∈ a.dims :=
                ((hmem d1).mp (List.mem_singleton_self d1)).2
              have hda : destagger a none = destaggerDim a d1 :=
                destagger_none_eq a d1 hl0
              rw [hda, destaggerDim_ok a d1 hmem1]
              simp
            · have hda : destagger a none = .error .ambiguousAxis := by
                unfold destagger
                rw [hl0]
              rw [hda]
              exact ⟨fun _ => by simp only [List.length_cons]; omega,
                fun _ => rfl⟩
          · rintro d rfl
            have hmem1 : staggeredName d ∈ a.dims :=
              ((hmem d).mp (List.mem_singleton_self d)).2
            have hda : destagger a none = destaggerDim a d :=
              destagger_none_eq a d hl0
            rw [hda, destaggerDim_ok a d hmem1]
            exact ⟨_, rfl, rfl⟩

/-- Witness for claim C9 at an array carrying both forms of west_east (the
invalid-grid failure) and at an array with a unique staggered axis (the
successful inference). -/
theorem staggered_axes_inference_witness :
    (∃ d, staggered_dims bothFormsArr = .error (.invalidGrid d)) ∧
    ¬(destagger stagArr none = .error .ambiguousAxis) ∧
    (∃ out, destagger stagArr none = .ok out ∧
      destagger stagArr none = destaggerDim stagArr "bottom_top") := by
  have h2 := (staggered_axes_inference stagArr).2 ["bottom_top"] rfl
  refine ⟨(staggered_axes_inference bothFormsArr).1
    ⟨"west_east", by decide, by decide, by decide⟩, ?_, ?_⟩
  · exact fun hc => (h2.2.1.mp hc) rfl
  · exact h2.2.2 "bottom_top" rfl

/-- Claim C10 (frame): destaggering changes only the staggered axis — every
other position keeps its dimension name and its size — and, the embedding
being purely functional like the xarray operations it models, it builds a
new array without mutating its argument. -/
theorem destagger_frame {α : Type} [DivisionRing α] (a : DataArray α)
    (d : String) (idx : ℕ) (hsd : staggered_dims a = .ok [d])
    (hidxeq : idx = a.dims.findIdx (fun x => x = staggeredName d))
    (hnd : a.dims.Nodup) :
    ∃ out, destagger a none = .ok out ∧
      out.dims.length = a.dims.length ∧
      out.shape.length = a.shape.length ∧
      (∀ j, j ≠ idx →
        out.dims.getD j "" = a.dims.getD j "" ∧
        out.shape.getD j 0 = a.shape.getD j 0) := by
  have hmem : staggeredName d ∈ a.dims :=
    staggered_dims_ok_mem hsd d (List.mem_singleton_self d)
  have h1 : destagger a none = destaggerDim a d := destagger_none_eq a d hsd
  rw [destaggerDim_ok a d hmem] at h1
  subst hidxeq
  refine ⟨_, h1, by simp, by simp, ?_⟩
  intro j hj
  constructor
  · by_cases hjl : j < a.dims.length
    · rw [List.getD_eq_getElem _ _ (by simpa using hjl),
        List.getD_eq_getElem _ _ hjl, List.getElem_map]
      have hflt : a.dims.findIdx (fun x => x = staggeredName d)
          < a.dims.length :=
        List.findIdx_lt_length_of_exists ⟨staggeredName d, hmem, by simp⟩
      rw [if_neg ?hne]
      case hne =>
        intro hc
        have hval2 : a.dims[a.dims.findIdx
            (fun x => x = staggeredName d)] = staggeredName d :=
          of_decide_eq_true (@List.findIdx_getElem _ _ _ hflt)
        have hje : a.dims[j] = a.dims[a.dims.findIdx
            (fun x => x = staggeredName d)] := by
          rw [hval2]
          exact hc
        exact hj ((hnd.getElem_inj_iff).mp hje)
    · rw [List.getD_eq_default _ _ (by simpa using le_of_not_lt hjl),
        List.getD_eq_default _ _ (le_of_not_lt hjl)]
  · simp [List.getD_eq_getElem?_getD, List.getElem?_set_ne (Ne.symm hj)]

/-- Witness for claim C10 at the concrete staggered array: the Time axis
keeps its name and size. -/
theorem destagger_frame_witness :
    stagArr.dims.Nodup ∧
    ∃ out, destagger stagArr none = .ok out ∧
      out.dims.length = 2 ∧ out.shape.length = 2 ∧
      out.dims.getD 0 "" = "Time" ∧ out.shape.getD 0 0 = 1 := by
  obtain ⟨out, h1, h2, h3, h4⟩ :=
    destagger_frame stagArr "bottom_top" 1 rfl rfl (by decide)
  obtain ⟨hd0, hs0⟩ := h4 0 (by decide)
  refine ⟨by decide, out, h1, ?_, ?_, ?_, ?_⟩
  · rw [h2]
    rfl
  · rw [h3]
    rfl
  · rw [hd0]
    rfl
  · rw [hs0]
    rfl

/-- Claim C3: for LCC metadata (projection code 1, valid pole attributes,
consistent optional descriptive name), resolution returns the descriptor
built from CEN_LAT, CEN_LON, TRUELAT1 and TRUELAT2 when the two equality
invariants hold, and fails with a metadata-inconsistency error when either
is violated. -/
theorem crs_lcc_resolution (a : WRFAttrs) (hproj : a.map_proj = 1)
    (hpl : a.pole_lon = 0) (hpt : a.pole_lat = 90 ∨ a.pole_lat = -90)
    (hchar : a.map_proj_char.getD "Lambert Conformal Conic"
      = "Lambert Conformal Conic") :
    (a.stand_lon = a.cen_lon ∧ a.moad_cen_lat = a.cen_lat →
      crs_pyproj a = .ok (.lcc a.cen_lat a.cen_lon a.truelat1 a.truelat2)) ∧
    (¬(a.stand_lon = a.cen_lon ∧ a.moad_cen_lat = a.cen_lat) →
      ∃ e, crs_pyproj a = .error e ∧ e.isMetadataInconsistent) := by
  have hdisp : crs_pyproj a = crs_pyproj_lcc a := by
    unfold crs_pyproj
    rw [if_neg (not_not_intro hpl), if_neg (not_not_intro hpt), if_pos hproj]
  constructor
  · rintro ⟨h1, h2⟩
    rw [hdisp]
    unfold crs_pyproj_lcc
    rw [if_neg (not_not_intro hchar), if_neg (not_not_intro h1),
      if_neg (not_not_intro h2)]
  · intro h
    rw [hdisp]
    unfold crs_pyproj_lcc
    rw [if_neg (not_not_intro hchar)]
    by_cases h1 : a.stand_lon = a.cen_lon
    · have h2 : a.moad_cen_lat ≠ a.cen_lat := fun hc => h ⟨h1, hc⟩
      rw [if_neg (not_not_intro h1), if_pos h2]
      exact ⟨_, rfl, trivial⟩
    · rw [if_pos h1]
      exact ⟨_, rfl, trivial⟩

/-- Witness for claim C3 at concrete consistent LCC metadata. -/
theorem crs_lcc_resolution_witness :
    lccGoodAttrs.map_proj = 1 ∧ lccGoodAttrs.pole_lon = 0 ∧
    lccGoodAttrs.stand_lon = lccGoodAttrs.cen_lon ∧
    crs_pyproj lccGoodAttrs = .ok (.lcc 45 (-3) 30 60) :=
  ⟨rfl, rfl, rfl,
    (crs_lcc_resolution lccGoodAttrs rfl rfl (Or.inl rfl) rfl).1 ⟨rfl, rfl⟩⟩

/-- Claim C4: projection resolution fails unless POLE_LON = 0 and POLE_LAT
is 90 or -90; given those, code 1 dispatches to the LCC builder, code 2 to
the polar-stereographic builder, the other documented codes fail with the
unsupported-projection error, and undocumented codes fail with the distinct
invalid-projection-code error. -/
theorem crs_dispatch (a : WRFAttrs) :
    (¬(a.pole_lon = 0 ∧ (a.pole_lat = 90 ∨ a.pole_lat = -90)) →
      ∃ e, crs_pyproj a = .error e) ∧
    (a.pole_lon = 0 → (a.pole_lat = 90 ∨ a.pole_lat = -90) →
      (a.map_proj = 1 → crs_pyproj a = crs_pyproj_lcc a) ∧
      (a.map_proj = 2 → crs_pyproj a = crs_pyproj_polarstereo a) ∧
      (a.map_proj ∈ ([0, 102, 3, 4, 5, 6, 105, 203] : List ℤ) →
        crs_pyproj a = .error (.unsupportedProjection a.map_proj)) ∧
      (a.map_proj ∉ ([1, 2, 0, 102, 3, 4, 5, 6, 105, 203] : List ℤ) →
        crs_pyproj a = .error (.invalidProjectionCode a.map_proj))) := by
  constructor
  · intro h
    unfold crs_pyproj
    by_cases h1 : a.pole_lon = 0
    · have h2 : ¬(a.pole_lat = 90 ∨ a.pole_lat = -90) :=
        fun hc => h ⟨h1, hc⟩
      rw [if_neg (not_not_intro h1), if_pos h2]
      exact ⟨_, rfl⟩
    · rw [if_pos h1]
      exact ⟨_, rfl⟩
  · intro h1 h2
    unfold crs_pyproj
    rw [if_neg (not_not_intro h1), if_neg (not_not_intro h2)]
    refine ⟨?_, ?_, ?_, ?_⟩
    · intro h3
      rw [if_pos h3]
    · intro h3
      rw [if_neg (by rw [h3]; decide), if_pos h3]
    · intro h3
      have n1 : a.map_proj ≠ 1 := by
        intro hc
        rw [hc] at h3
        revert h3
        decide
      have n2 : a.map_proj ≠ 2 := by
        intro hc
        rw [hc] at h3
        revert h3
        decide
      rw [if_neg n1, if_neg n2, if_pos h3]
    · intro h3
      have n1 : a.map_proj ≠ 1 := fun hc => h3 (by rw [hc]; decide)
      have n2 : a.map_proj ≠ 2 := fun hc => h3 (by rw [hc]; decide)
      have n3 : a.map_proj ∉ ([0, 102, 3, 4, 5, 6, 105, 203] : List ℤ) :=
        fun hc =>
          h3 (List.mem_cons_of_mem _ (List.mem_cons_of_mem _ hc))
      rw [if_neg n1, if_neg n2, if_neg n3]

/-- Witness for claim C4 at metadata carrying the documented but
unsupported Mercator code 3. -/
theorem crs_dispatch_witness :
    mercatorAttrs.pole_lon = 0 ∧ mercatorAttrs.pole_lat = 90 ∧
    mercatorAttrs.map_proj ∈ ([0, 102, 3, 4, 5, 6, 105, 203] : List ℤ) ∧
    crs_pyproj mercatorAttrs = .error (.unsupportedProjection 3) :=
  ⟨rfl, rfl, by decide,
    ((crs_dispatch mercatorAttrs).2 rfl (Or.inl rfl)).2.2.1 (by decide)⟩

/-- Counterexample to claim C5 as stated: metadata whose three true
latitudes agree with each other (TRUELAT1 = TRUELAT2 = MOAD_CEN_LAT = 60,
exactly and after rounding) and whose longitudes agree, yet resolution
fails, because the source compares each of the three latitudes with
CEN_LAT (here 50), not with each other. -/
theorem polarstereo_counterexample :
    polarBadAttrs.map_proj = 2 ∧
    polarBadAttrs.pole_lon = 0 ∧ polarBadAttrs.pole_lat = 90 ∧
    polarBadAttrs.map_proj_char = none ∧
    polarBadAttrs.stand_lon = polarBadAttrs.cen_lon ∧
    polarBadAttrs.truelat1 = polarBadAttrs.truelat2 ∧
    polarBadAttrs.truelat2 = polarBadAttrs.moad_cen_lat ∧
    pyRound polarBadAttrs.truelat1 4 = pyRound polarBadAttrs.truelat2 4 ∧
    pyRound polarBadAttrs.truelat2 4 = pyRound polarBadAttrs.moad_cen_lat 4 ∧
    crs_pyproj polarBadAttrs = .error .inconsistentTrueLatitude := by
  refine ⟨rfl, rfl, rfl, rfl, rfl, rfl, rfl, rfl, rfl, ?_⟩
  have h60 : pyRound (60 : ℚ) 4 = 60 := by
    simpa using pyRound_int 60 4
  have h50 : pyRound (50 : ℚ) 4 = 50 := by
    simpa using pyRound_int 50 4
  have hne : pyRound (60 : ℚ) 4 ≠ pyRound (50 : ℚ) 4 := by
    rw [h60, h50]
    norm_num
  unfold crs_pyproj
  have c1 : ¬(polarBadAttrs.pole_lon ≠ 0) := not_not_intro rfl
  have c2 : ¬¬(polarBadAttrs.pole_lat = 90 ∨ polarBadAttrs.pole_lat = -90) :=
    not_not_intro (Or.inl rfl)
  have c3 : ¬(polarBadAttrs.map_proj = 1) := by decide
  have c4 : polarBadAttrs.map_proj = 2 := rfl
  rw [if_neg c1, if_neg c2, if_neg c3, if_pos c4]
  unfold crs_pyproj_polarstereo
  have c5 : ¬(polarBadAttrs.map_proj_char.getD "Polar Stereographic"
      ≠ "Polar Stereographic") := not_not_intro rfl
  have c6 : ¬(polarBadAttrs.stand_lon ≠ polarBadAttrs.cen_lon) :=
    not_not_intro rfl
  have c7 : pyRound polarBadAttrs.truelat1 4
      ≠ pyRound polarBadAttrs.cen_lat 4 := hne
  rw [if_neg c5, if_neg c6, if_pos c7]

/-- Claim C5, amended: for polar-stereographic metadata (projection code 2,
valid pole attributes, consistent optional descriptive name), resolution
succeeds if and only if STAND_LON = CEN_LON and each of TRUELAT1, TRUELAT2
and MOAD_CEN_LAT equals CEN_LAT after rounding to 4 decimal places, and on
success emits the descriptor (POLE_LAT, TRUELAT1, CEN_LON). -/
theorem polarstereo_resolution (a : WRFAttrs) (hproj : a.map_proj = 2)
    (hpl : a.pole_lon = 0) (hpt : a.pole_lat = 90 ∨ a.pole_lat = -90)
    (hchar : a.map_proj_char.getD "Polar Stereographic"
      = "Polar Stereographic") :
    ((∃ d, crs_pyproj a = .ok d) ↔
      (a.stand_lon = a.cen_lon ∧
       pyRound a.truelat1 4 = pyRound a.cen_lat 4 ∧
       pyRound a.truelat2 4 = pyRound a.cen_lat 4 ∧
       pyRound a.moad_cen_lat 4 = pyRound a.cen_lat 4)) ∧
    (a.stand_lon = a.cen_lon →
     pyRound a.truelat1 4 = pyRound a.cen_lat 4 →
     pyRound a.truelat2 4 = pyRound a.cen_lat 4 →
     pyRound a.moad_cen_lat 4 = pyRound a.cen_lat 4 →
      crs_pyproj a = .ok (.stere a.pole_lat a.truelat1 a.cen_lon)) := by
  have hdisp : crs_pyproj a = crs_pyproj_polarstereo a := by
    unfold crs_pyproj
    rw [if_neg (not_not_intro hpl), if_neg (not_not_intro hpt),
      if_neg (by rw [hproj]; decide), if_pos hproj]
  have hok : ∀ h1 : a.stand_lon = a.cen_lon,
      pyRound a.truelat1 4 = pyRound a.cen_lat 4 →
      pyRound a.truelat2 4 = pyRound a.cen_lat 4 →
      pyRound a.moad_cen_lat 4 = pyRound a.cen_lat 4 →
      crs_pyproj a = .ok (.stere a.pole_lat a.truelat1 a.cen_lon) := by
    intro h1 h2 h3 h4
    rw [hdisp]
    unfold crs_pyproj_polarstereo
    rw [if_neg (not_not_intro hchar), if_neg (not_not_intro h1),
      if_neg (not_not_intro h2), if_neg (not_not_intro h3),
      if_neg (not_not_intro h4)]
  refine ⟨⟨?_, ?_⟩, hok⟩
  · rintro ⟨d, hd⟩
    rw [hdisp] at hd
    unfold crs_pyproj_polarstereo at hd
    rw [if_neg (not_not_intro hchar)] at hd
    split_ifs at hd with hc1 hc2 hc3 hc4
    · exact ⟨not_not.mp hc1, not_not.mp hc2, not_not.mp hc3, not_not.mp hc4⟩
  · rintro ⟨h1, h2, h3, h4⟩
    exact ⟨_, hok h1 h2 h3 h4⟩

/-- Witness for claim C5 at concrete metadata whose TRUELAT1 differs from
CEN_LAT by 1/100000 (equal only after rounding to 4 decimals). -/
theorem polarstereo_resolution_witness :
    polarGoodAttrs.map_proj = 2 ∧
    pyRound polarGoodAttrs.truelat1 4 = pyRound polarGoodAttrs.cen_lat 4 ∧
    polarGoodAttrs.truelat1 ≠ polarGoodAttrs.cen_lat ∧
    crs_pyproj polarGoodAttrs = .ok (.stere 90 (70 + 1 / 100000) 10) := by
  have hr1 : pyRound (70 + 1 / 100000 : ℚ) 4 = 70 := by
    unfold pyRound pyRoundInt
    have h1 : ((70 + 1 / 100000) * 10 ^ 4 : ℚ) = 700000 + 1 / 10 := by
      norm_num
    have h2 : ⌊(700000 + 1 / 10 : ℚ)⌋ = 700000 := by
      rw [Int.floor_eq_iff]
      norm_num
    rw [h1, h2]
    norm_num
  have hr70 : pyRound (70 : ℚ) 4 = 70 := by
    simpa using pyRound_int 70 4
  have heq : pyRound polarGoodAttrs.truelat1 4
      = pyRound polarGoodAttrs.cen_lat 4 := by
    show pyRound (70 + 1 / 100000 : ℚ) 4 = pyRound (70 : ℚ) 4
    rw [hr1, hr70]
  refine ⟨rfl, heq, by norm_num [polarGoodAttrs], ?_⟩
  exact (polarstereo_resolution polarGoodAttrs rfl rfl (Or.inl rfl) rfl).2
    rfl heq rfl rfl

/-- Claim C1: on any dataset slice whose input variables carry the expected
units, the derived-variable chain satisfies, pointwise,
AtmPressure = P + PB, PotentialTemperature = T + 300,
AirTemperature = PotentialTemperature * (AtmPressure / 1e5) ^ (287/1004.5)
and DensityOfDryAir = AtmPressure / (287 * AirTemperature). -/
theorem derived_chain (ds : Dataset ℝ) (s : Selection) (p pb t : DataArray ℝ)
    (hP : ds.vars "P" = some p) (hPB : ds.vars "PB" = some pb)
    (hT : ds.vars "T" = some t)
    (huP : units_nice ds "P" = .ok (some "Pa"))
    (huPB : units_nice ds "PB" = .ok (some "Pa"))
    (huT : units_nice ds "T" = .ok (some "K")) :
    ∃ ap pt ta rho,
      atmPressureGetitem ds s = .ok ap ∧
      potentialTemperatureGetitem ds s = .ok pt ∧
      airTemperatureGetitem ds s = .ok ta ∧
      densityOfDryAirGetitem ds s = .ok rho ∧
      ∀ ix : List Nat,
        ap.data ix = p.data (s.mapIdx ix) + pb.data (s.mapIdx ix) ∧
        pt.data ix = t.data (s.mapIdx ix) + 300 ∧
        ta.data ix = pt.data ix
          * (ap.data ix / 1e5) ^ ((287 : ℝ) / 1004.5) ∧
        rho.data ix = ap.data ix / (287 * ta.data ix) := by
  have hatm := atmPressure_ok ds s p pb hP hPB huP huPB
  have hpot := potentialTemperature_ok ds s t hT huT
  have hair : airTemperatureGetitem ds s = .ok
      (relabel (DataArray.zipSame (fun x y =>
          x * RealOps.rpow (y / constants_pot_temp_p0)
            (constants_r_air / constants_cp_air))
        (relabel ((t.select s).mapVals (fun x => constants_pot_temp_t0 + x))
          "potential temperature" "Potential temperature" "K")
        (relabel (DataArray.zipSame (fun x y => x + y) (p.select s)
          (pb.select s)) "atmospheric pressure" "Atmospheric pressure"
          "Pa"))
      "air temperature" "Air temperature" "K") := by
    unfold airTemperatureGetitem
    rw [hpot, hatm]
    rfl
  have hden : densityOfDryAirGetitem ds s = .ok
      (relabel (DataArray.zipSame (fun x y =>
          x / (constants_r_air * y))
        (relabel (DataArray.zipSame (fun x y => x + y) (p.select s)
          (pb.select s)) "atmospheric pressure" "Atmospheric pressure"
          "Pa")
        (relabel (DataArray.zipSame (fun x y =>
            x * RealOps.rpow (y / constants_pot_temp_p0)
              (constants_r_air / constants_cp_air))
          (relabel ((t.select s).mapVals
            (fun x => constants_pot_temp_t0 + x))
            "potential temperature" "Potential temperature" "K")
          (relabel (DataArray.zipSame (fun x y => x + y) (p.select s)
            (pb.select s)) "atmospheric pressure" "Atmospheric pressure"
            "Pa"))
          "air temperature" "Air temperature" "K"))
      "dry air density" "Dry air density" "kg m-3") := by
    unfold densityOfDryAirGetitem
    rw [hatm, hair]
    rfl
  refine ⟨_, _, _, _, hatm, hpot, hair, hden, ?_⟩
  intro ix
  refine ⟨rfl, ?_, rfl, rfl⟩
  show (300 : ℝ) + t.data (s.mapIdx ix) = t.data (s.mapIdx ix) + 300
  exact add_comm 300 (t.data (s.mapIdx ix))

/-- Witness for claim C1 at the end-to-end dataset of the specification:
P = PB = 50000 Pa and T = 10 K yield AtmPressure = 100000 Pa,
AirTemperature = 310 K and DensityOfDryAir = 100000 / (287 * 310). -/
theorem derived_chain_witness :
    units_nice endToEndDs "P" = .ok (some "Pa") ∧
    units_nice endToEndDs "T" = .ok (some "K") ∧
    ∃ ap pt ta rho,
      atmPressureGetitem endToEndDs Selection.full = .ok ap ∧
      potentialTemperatureGetitem endToEndDs Selection.full = .ok pt ∧
      airTemperatureGetitem endToEndDs Selection.full = .ok ta ∧
      densityOfDryAirGetitem endToEndDs Selection.full = .ok rho ∧
      ap.data [0, 0, 0, 0] = 100000 ∧
      pt.data [0, 0, 0, 0] = 310 ∧
      ta.data [0, 0, 0, 0] = 310 ∧
      rho.data [0, 0, 0, 0] = 100000 / (287 * 310) := by
  obtain ⟨ap, pt, ta, rho, h1, h2, h3, h4, h5⟩ :=
    derived_chain endToEndDs Selection.full
      (constArr4 "Pa" 50000) (constArr4 "Pa" 50000) (constArr4 "K" 10)
      rfl rfl rfl rfl rfl rfl
  obtain ⟨e1, e2, e3, e4⟩ := h5 [0, 0, 0, 0]
  have hap : ap.data [0, 0, 0, 0] = 100000 := by
    rw [e1]
    show (50000 : ℝ) + 50000 = 100000
    norm_num
  have hpt : pt.data [0, 0, 0, 0] = 310 := by
    rw [e2]
    show (10 : ℝ) + 300 = 310
    norm_num
  have hta : ta.data [0, 0, 0, 0] = 310 := by
    rw [e3, hap, hpt]
    have hone : (100000 : ℝ) / 1e5 = 1 := by norm_num
    rw [hone, Real.one_rpow, mul_one]
  have hrho : rho.data [0, 0, 0, 0] = 100000 / (287 * 310) := by
    rw [e4, hap, hta]
  exact ⟨rfl, rfl, ap, pt, ta, rho, h1, h2, h3, h4, hap, hpt, hta, hrho⟩

/-- Claim C6 (the code contradicts its own docstring): on a well-formed
dataset for which the bracketing checks succeed, `WRFSeaLevelPressure`
neither returns a labelled field nor raises — its body ends without a
`return` statement, so the access returns an absent result (Python None),
unlike the seven other derived variables. -/
theorem seaLevelPressure_returns_none :
    seaLevelPressureGetitem slpDs Selection.full = .ok none := by
  have hatm := atmPressure_ok slpDs Selection.full slpP (colArr "Pa" 50000)
    rfl rfl rfl rfl
  have hair := airTemperature_ok slpDs Selection.full slpP
    (colArr "Pa" 50000) (colArr "K" 10) rfl rfl rfl rfl rfl rfl
  have hgeo := geopotential_ok slpDs Selection.full slpPH slpPHB
    rfl rfl rfl rfl
  have hq : getVar slpDs "QVAPOR" = .ok (colArr "kg kg-1" 0.005) := rfl
  have hcq : check_units slpDs "QVAPOR" "kg kg-1" true = .ok () :=
    check_units_ok slpDs "QVAPOR" "kg kg-1" rfl
  have hsz : slpDs.sizes "bottom_top" = some 3 := rfl
  have happ : "bottom_top" ++ "_stag" = "bottom_top_stag" := rfl
  unfold seaLevelPressureGetitem
  rw [hsz, hatm, hair, hgeo, hq, hcq]
  norm_num [happ, Bind.bind, Except.bind, Pure.pure,
    Except.pure, DataArray.subAligned, DataArray.iselDrop,
    DataArray.mapVals, DataArray.select, DataArray.zipSame, DataArray.zip3,
    DataArray.retype, relabel, whereMinLevel, takeAlong, allIdx, alignIdx,
    listInsertAt, dimsIndex, destagger, destaggerDim, staggeredName,
    Selection.full, slpP, colArr, slpPH, slpPHB, List.find?,
    List.range_succ, List.findIdx_cons, List.getD, Option.getD,
    Option.isNone]

end Wrfpp

